import Mathlib

/-!
# ETS2/ATS telemetry plugin (`src/telemetry.cpp`): embedding and checked properties

The plugin is a set of C callbacks working on process-wide globals.  The embedding makes
the globals one record (`Plugin`), makes every callback a function from `Plugin` to
`Plugin`, and records every call that leaves the plugin (file, socket, host) as an
`Effect`, in program order.

Conventions:
* the `__linux__` branches of the conditional compilation are the ones embedded
  (`socket`/`close`, glibc `printf`);
* `scs_timestamp_t` (unsigned 64 bit) is a `Nat` with explicit reduction modulo `2 ^ 64`;
* `int` / `scs_s32_t` is an `Int`, the 32-bit range is the predicate `is_s32`;
* `float` is the IEEE-754 binary32 bit pattern `F32` (sign, exponent field, mantissa
  field), so every inhabitant is a 32-bit float and nothing else is;
* what the environment answers (does `fopen` succeed, what does `socket` return, what do
  the host's registration functions return) is an argument of the function that asks;
* constants and macros of the SCS SDK headers, which are not part of the sources, are the
  fields of the parameter `SDK`;
* the callbacks that only write the log file and set `print_header`
  (`telemetry_frame_end`, `telemetry_configuration`, `telemetry_gameplay_event` with
  `telemetry_print_attributes`) are outside the embedding.

The definitions come first, the theorems after them.
-/

/-! ## 32-bit floats and `printf` -/

/-- IEEE-754 binary32 value, held as its three bit fields. -/
structure F32 where
  sign : Bool
  exponent : Fin 256
  mantissa : Fin 8388608
deriving DecidableEq, Repr

namespace F32

/-- The constant `0.0f`. -/
def zero : F32 := ⟨false, 0, 0⟩

/-- The constant `-0.0f`. -/
def neg_zero : F32 := ⟨true, 0, 0⟩

def isNaN (x : F32) : Bool := x.exponent.val == 255 && x.mantissa.val != 0

def isZero (x : F32) : Bool := x.exponent.val == 0 && x.mantissa.val == 0

/-- The C operator `==` on floats: a NaN equals nothing, the two zeros are equal. -/
def eq (a b : F32) : Bool :=
  if a.isNaN || b.isNaN then false
  else if a.isZero && b.isZero then true
  else decide (a = b)

/-- Integer significand: a finite `x` has magnitude `significand * 2 ^ scale / 2 ^ 150`. -/
def significand (x : F32) : Nat :=
  if x.exponent.val = 0 then x.mantissa.val else 8388608 + x.mantissa.val

/-- Binary scale of a finite value, see `significand`. -/
def scale (x : F32) : Nat :=
  if x.exponent.val = 0 then 1 else x.exponent.val

end F32

/-- The quotient `n / d` rounded to the nearest integer, ties to the even one. -/
def round_half_even (n d : Nat) : Nat :=
  let q := n / d
  let r := n % d
  if d < 2 * r ∨ (2 * r = d ∧ q % 2 = 1) then q + 1 else q

/-- The float nearest to `n * 2 ^ e` (with `0 < n`), ties to even, overflow to infinity. -/
def F32.round_pack (sign : Bool) (n : Nat) (e : Int) : F32 :=
  let q : Int := max ((Nat.log2 n : Int) + e - 23) (-149)
  let k : Int := e - q
  let m : Nat := if 0 ≤ k then n * 2 ^ k.toNat else round_half_even n (2 ^ (-k).toNat)
  let m1 : Nat := if m = 16777216 then 8388608 else m
  let q1 : Int := if m = 16777216 then q + 1 else q
  if m1 < 8388608 then ⟨sign, 0, Fin.ofNat m1⟩
  else if 255 ≤ q1 + 150 then ⟨sign, 255, 0⟩
  else ⟨sign, Fin.ofNat (q1 + 150).toNat, Fin.ofNat (m1 - 8388608)⟩

/-- The float product `x * 360.0f`. -/
def F32.mul360 (x : F32) : F32 :=
  if x.exponent.val = 255 then
    (if x.mantissa.val = 0 then x else ⟨x.sign, 255, Fin.ofNat (x.mantissa.val ||| 4194304)⟩)
  else if x.significand = 0 then x
  else F32.round_pack x.sign (x.significand * 360) ((x.scale : Int) - 150)

/-- Left padding with `'0'` up to `width` characters. -/
def pad_zeros (width : Nat) (s : String) : String :=
  String.mk (List.replicate (width - s.length) '0') ++ s

/-- The conversion `%.<prec>f` of glibc `printf` applied to a float argument (promoted to
double without change of value): sign, then the exactly rounded decimal expansion. -/
def printf_f (prec : Nat) (x : F32) : String :=
  let sgn := if x.sign then "-" else ""
  if x.exponent.val = 255 then
    sgn ++ (if x.mantissa.val = 0 then "inf" else "nan")
  else
    let q := round_half_even (x.significand * 2 ^ x.scale * 10 ^ prec) (2 ^ 150)
    sgn ++ Nat.repr (q / 10 ^ prec) ++
      (if prec = 0 then "" else "." ++ pad_zeros prec (Nat.repr (q % 10 ^ prec)))

/-- The conversion `%d` of `printf`. -/
def printf_d (i : Int) : String :=
  if i < 0 then "-" ++ Nat.repr i.natAbs else Nat.repr i.natAbs

/-- Range of `int` / `scs_s32_t`. -/
def is_s32 (i : Int) : Prop := -2147483648 ≤ i ∧ i ≤ 2147483647

instance (i : Int) : Decidable (is_s32 i) := by unfold is_s32; infer_instance

/-! ## SDK types -/

inductive scs_result_t
  | ok | unsupported | invalid_parameter | already_registered
  | not_found | unsupported_type | not_now | generic_error
deriving DecidableEq, Repr

inductive scs_event_t
  | frame_start | frame_end | paused | started | configuration | gameplay
deriving DecidableEq, Repr

inductive scs_log_type_t
  | message | warning | error
deriving DecidableEq, Repr

/-- The callbacks of the plugin, as the host sees them (function addresses). -/
inductive Callback
  | telemetry_frame_start | telemetry_frame_end | telemetry_pause
  | telemetry_configuration | telemetry_gameplay_event
  | telemetry_store_orientation | telemetry_store_float | telemetry_store_s32
deriving DecidableEq, Repr

/-- The channels the plugin registers for. -/
inductive Channel
  | world_placement | speed | engine_rpm | engine_gear | displayed_gear
  | input_steering | input_throttle | input_brake | input_clutch | cruise_control
deriving DecidableEq, Repr

inductive scs_value_type_t
  | euler | float | s32
deriving DecidableEq, Repr

inductive ChannelFlag
  | none | no_value
deriving DecidableEq, Repr

/-- The `float` members of `telemetry_state_t`: what a `float *` context can point to. -/
inductive FloatField
  | heading | pitch | roll | speed | rpm
  | input_steering | input_throttle | input_brake | input_clutch | cruise_control
deriving DecidableEq, Repr

/-- The `int` members of `telemetry_state_t`: what an `int *` context can point to. -/
inductive IntField
  | gear | displayed_gear
deriving DecidableEq, Repr

/-- The context pointers handed to the host at registration. -/
inductive Context
  | null
  | telemetry
  | float_member (f : FloatField)
  | int_member (i : IntField)
deriving DecidableEq, Repr

structure scs_value_euler_t where
  heading : F32
  pitch : F32
  roll : F32
deriving DecidableEq, Repr

structure scs_telemetry_frame_start_t where
  flags : Nat
  render_time : Nat
  simulation_time : Nat
  paused_simulation_time : Nat
deriving DecidableEq, Repr

/-- Constants and macros of the SCS SDK headers (`scssdk_telemetry.h` and the per-game
headers), which the sources include but do not contain. -/
structure SDK where
  SCS_TELEMETRY_VERSION_1_01 : Nat
  SCS_TELEMETRY_FRAME_START_FLAG_timer_restart : Nat
  SCS_GAME_ID_EUT2 : String
  SCS_GAME_ID_ATS : String
  SCS_TELEMETRY_EUT2_GAME_VERSION_1_00 : Nat
  SCS_TELEMETRY_EUT2_GAME_VERSION_CURRENT : Nat
  SCS_TELEMETRY_ATS_GAME_VERSION_1_00 : Nat
  SCS_TELEMETRY_ATS_GAME_VERSION_CURRENT : Nat
  SCS_GET_MAJOR_VERSION : Nat → Nat
  SCS_GET_MINOR_VERSION : Nat → Nat

/-- Modelled from the spec: the SDK headers are missing from the sources and the spec
only names what they provide (one supported protocol version, a timer-restart flag on the
frame-start event, the two game identifiers); the values are those of the public SCS
Telemetry SDK, version 1.01 of the API. -/
def scssdk : SDK where
  SCS_TELEMETRY_VERSION_1_01 := 65537
  SCS_TELEMETRY_FRAME_START_FLAG_timer_restart := 1
  SCS_GAME_ID_EUT2 := "eut2"
  SCS_GAME_ID_ATS := "ats"
  SCS_TELEMETRY_EUT2_GAME_VERSION_1_00 := 65536
  SCS_TELEMETRY_EUT2_GAME_VERSION_CURRENT := 65554
  SCS_TELEMETRY_ATS_GAME_VERSION_1_00 := 65536
  SCS_TELEMETRY_ATS_GAME_VERSION_CURRENT := 65541
  SCS_GET_MAJOR_VERSION := fun v => (v >>> 16) &&& 65535
  SCS_GET_MINOR_VERSION := fun v => v &&& 65535

/-- The part of `scs_telemetry_init_params_v101_t` the plugin uses; the two registration
functions are given by the result the host returns for each request. -/
structure scs_telemetry_init_params_v101_t where
  game_id : String
  game_version : Nat
  register_for_event : scs_event_t → scs_result_t
  register_for_channel : Channel → scs_result_t

/-- What the operating system answers during one call of `scs_telemetry_init`. -/
structure OS where
  fopen_ok : Bool
  socket_result : Int

/-! ## Globals of the plugin -/

structure sockaddr_in where
  sin_family : Nat
  sin_port : Nat
  s_addr : Nat
deriving DecidableEq, Repr

def AF_INET : Nat := 2

def INADDR_LOOPBACK : Nat := 2130706433

/-- Combined telemetry data. -/
structure telemetry_state_t where
  timestamp : Nat
  raw_rendering_timestamp : Nat
  raw_simulation_timestamp : Nat
  raw_paused_simulation_timestamp : Nat
  orientation_available : Bool
  heading : F32
  pitch : F32
  roll : F32
  speed : F32
  rpm : F32
  gear : Int
  input_steering : F32
  input_throttle : F32
  input_brake : F32
  input_clutch : F32
  cruise_control : F32
  displayed_gear : Int
deriving DecidableEq, Repr

/-- The result of `memset(&telemetry, 0, sizeof(telemetry))`, also the value of the
zero-initialised global. -/
def telemetry_state_t.zeroed : telemetry_state_t where
  timestamp := 0
  raw_rendering_timestamp := 0
  raw_simulation_timestamp := 0
  raw_paused_simulation_timestamp := 0
  orientation_available := false
  heading := F32.zero
  pitch := F32.zero
  roll := F32.zero
  speed := F32.zero
  rpm := F32.zero
  gear := 0
  input_steering := F32.zero
  input_throttle := F32.zero
  input_brake := F32.zero
  input_clutch := F32.zero
  cruise_control := F32.zero
  displayed_gear := 0

/-- All globals of `telemetry.cpp`.  `log_file` and `game_log` are pointers of which only
null / non-null matters: `true` is non-null. -/
structure Plugin where
  log_file : Bool
  output_paused : Bool
  print_header : Bool
  last_timestamp : Nat
  telemetry : telemetry_state_t
  game_log : Bool
  g_udp_fd : Int
  g_udp_addr : sockaddr_in
  g_udp_ready : Bool
  g_udp_speed : F32
  g_udp_rpm : F32
deriving DecidableEq, Repr

/-- The value `static_cast<scs_timestamp_t>(-1)`. -/
def TIMESTAMP_UNSET : Nat := 18446744073709551615

/-- The globals right after the library is loaded (their static initialisers). -/
def Plugin.loaded : Plugin where
  log_file := false
  output_paused := true
  print_header := true
  last_timestamp := TIMESTAMP_UNSET
  telemetry := telemetry_state_t.zeroed
  game_log := false
  g_udp_fd := -1
  g_udp_addr := ⟨0, 0, 0⟩
  g_udp_ready := false
  g_udp_speed := F32.zero
  g_udp_rpm := F32.zero

/-- A call that leaves the plugin, with its arguments (and its result where the plugin
looks at it). -/
inductive Effect
  | fopen (path : String) (mode : String) (ok : Bool)
  | fprintf (text : String)
  | fclose
  | socket (result : Int)
  | close (fd : Int)
  | sendto (fd : Int) (buf : String) (len : Nat) (addr : sockaddr_in)
  | host_log (type : scs_log_type_t) (message : String)
  | register_for_event (event : scs_event_t) (callback : Callback) (context : Context)
      (result : scs_result_t)
  | register_for_channel (channel : Channel) (type : scs_value_type_t) (flags : ChannelFlag)
      (callback : Callback) (context : Context) (result : scs_result_t)
deriving DecidableEq, Repr

/-! ## UDP output -/

def udp_open (os : OS) (s : Plugin) : Plugin × List Effect :=
  let s1 := { s with g_udp_fd := os.socket_result }
  if os.socket_result < 0 then
    ({ s1 with g_udp_ready := false }, [Effect.socket os.socket_result])
  else
    ({ s1 with g_udp_addr := ⟨AF_INET, 49001, INADDR_LOOPBACK⟩, g_udp_ready := true },
      [Effect.socket os.socket_result])

def udp_close (s : Plugin) : Plugin × List Effect :=
  ({ s with g_udp_fd := -1, g_udp_ready := false },
    if 0 ≤ s.g_udp_fd then [Effect.close s.g_udp_fd] else [])

/-- The text `snprintf` produces for the format of `udp_send_json`, before any cut to the
size of the buffer; its length is what `snprintf` returns. -/
def snprintf_json (speed rpm : F32) (gear displayed_gear : Int)
    (input_steering input_throttle input_brake input_clutch cruise_control : F32) : String :=
  "\x7b\"speed\":" ++ printf_f 3 speed ++ ",\"rpm\":" ++ printf_f 1 rpm ++
  ",\"gear\":" ++ printf_d gear ++ ",\"dgear\":" ++ printf_d displayed_gear ++
  ",\"steer\":" ++ printf_f 3 input_steering ++ ",\"throttle\":" ++ printf_f 3 input_throttle ++
  ",\"brake\":" ++ printf_f 3 input_brake ++ ",\"clutch\":" ++ printf_f 3 input_clutch ++
  ",\"cruise\":" ++ printf_f 3 cruise_control ++ "\x7d\n"

/-- The text of `udp_send_json` for the state `s`: the local `speed` is `g_udp_speed`
with a zero replaced by `0.0f`. -/
def json_text (s : Plugin) : String :=
  let speed := if F32.eq s.g_udp_speed F32.zero then F32.zero else s.g_udp_speed
  snprintf_json speed s.g_udp_rpm s.telemetry.gear s.telemetry.displayed_gear
    s.telemetry.input_steering s.telemetry.input_throttle s.telemetry.input_brake
    s.telemetry.input_clutch s.telemetry.cruise_control

/-- The buffer `buf[512]` holds at most 511 characters of the text; `sendto` is given the
buffer and the length `n` that `snprintf` returned. -/
def udp_send_json (s : Plugin) : List Effect :=
  if !s.g_udp_ready then []
  else
    let text := json_text s
    let buf := String.mk (text.data.take 511)
    let n := text.length
    if 0 < n then [Effect.sendto s.g_udp_fd buf n s.g_udp_addr] else []

/-! ## Log file -/

def init_log (os : OS) (s : Plugin) : Bool × Plugin × List Effect :=
  if s.log_file then (true, s, [])
  else if !os.fopen_ok then (false, s, [Effect.fopen "telemetry.log" "wt" false])
  else (true, { s with log_file := true },
    [Effect.fopen "telemetry.log" "wt" true, Effect.fprintf "Log opened\n"])

def finish_log (s : Plugin) : Plugin × List Effect :=
  if !s.log_file then (s, [])
  else ({ s with log_file := false }, [Effect.fprintf "Log ended\n", Effect.fclose])

/-- The function `log_line`, applied to the already formatted text. -/
def log_line (s : Plugin) (text : String) : List Effect :=
  if !s.log_file then [] else [Effect.fprintf text, Effect.fprintf "\n"]

/-! ## Events -/

def telemetry_frame_start (sdk : SDK) (info : scs_telemetry_frame_start_t) (s : Plugin) :
    Plugin :=
  let last1 :=
    if s.last_timestamp = TIMESTAMP_UNSET then info.paused_simulation_time
    else s.last_timestamp
  let last2 :=
    if info.flags &&& sdk.SCS_TELEMETRY_FRAME_START_FLAG_timer_restart ≠ 0 then 0 else last1
  let delta := (info.paused_simulation_time + 2 ^ 64 - last2) % 2 ^ 64
  { s with
    last_timestamp := info.paused_simulation_time
    telemetry := { s.telemetry with
      timestamp := (s.telemetry.timestamp + delta) % 2 ^ 64
      raw_rendering_timestamp := info.render_time
      raw_simulation_timestamp := info.simulation_time
      raw_paused_simulation_timestamp := info.paused_simulation_time } }

def telemetry_pause (event : scs_event_t) (s : Plugin) : Plugin × List Effect :=
  let s1 := { s with output_paused := decide (event = scs_event_t.paused) }
  ({ s1 with print_header := true },
    log_line s1 (if s1.output_paused then "Telemetry paused" else "Telemetry unpaused"))

/-! ## Channels -/

def telemetry_store_orientation (value : Option scs_value_euler_t) (s : Plugin) :
    Plugin × List Effect :=
  match value with
  | none => ({ s with telemetry := { s.telemetry with orientation_available := false } }, [])
  | some v =>
    ({ s with telemetry := { s.telemetry with
        orientation_available := true
        heading := v.heading.mul360
        pitch := v.pitch.mul360
        roll := v.roll.mul360 } }, [])

/-- The assignment `*static_cast<float *>(context) = value`. -/
def telemetry_state_t.store_float (t : telemetry_state_t) (context : FloatField) (value : F32) :
    telemetry_state_t :=
  match context with
  | .heading => { t with heading := value }
  | .pitch => { t with pitch := value }
  | .roll => { t with roll := value }
  | .speed => { t with speed := value }
  | .rpm => { t with rpm := value }
  | .input_steering => { t with input_steering := value }
  | .input_throttle => { t with input_throttle := value }
  | .input_brake => { t with input_brake := value }
  | .input_clutch => { t with input_clutch := value }
  | .cruise_control => { t with cruise_control := value }

/-- The assignment `*static_cast<int *>(context) = value`. -/
def telemetry_state_t.store_s32 (t : telemetry_state_t) (context : IntField) (value : Int) :
    telemetry_state_t :=
  match context with
  | .gear => { t with gear := value }
  | .displayed_gear => { t with displayed_gear := value }

def telemetry_store_float (value : F32) (context : FloatField) (s : Plugin) :
    Plugin × List Effect :=
  let s1 := { s with telemetry := s.telemetry.store_float context value }
  if context = FloatField.speed then
    let s2 := { s1 with g_udp_speed := value }
    (s2, udp_send_json s2)
  else if context = FloatField.rpm then
    let s2 := { s1 with g_udp_rpm := value }
    (s2, udp_send_json s2)
  else if context = FloatField.input_steering ∨ context = FloatField.input_throttle ∨
      context = FloatField.input_brake ∨ context = FloatField.input_clutch ∨
      context = FloatField.cruise_control then
    (s1, udp_send_json s1)
  else (s1, [])

def telemetry_store_s32 (value : Int) (context : IntField) (s : Plugin) :
    Plugin × List Effect :=
  let s1 := { s with telemetry := s.telemetry.store_s32 context value }
  if context = IntField.gear ∨ context = IntField.displayed_gear then
    (s1, udp_send_json s1)
  else (s1, [])

/-! ## Initialisation and shutdown -/

/-- The warnings of `scs_telemetry_init` about the game and its version. -/
def game_version_warnings (sdk : SDK) (params : scs_telemetry_init_params_v101_t)
    (s : Plugin) : List Effect :=
  if params.game_id = sdk.SCS_GAME_ID_EUT2 then
    (if params.game_version < sdk.SCS_TELEMETRY_EUT2_GAME_VERSION_1_00 then
      log_line s "WARNING: Too old version of the game, some features might behave incorrectly"
     else []) ++
    (if sdk.SCS_GET_MAJOR_VERSION sdk.SCS_TELEMETRY_EUT2_GAME_VERSION_CURRENT <
        sdk.SCS_GET_MAJOR_VERSION params.game_version then
      log_line s
        "WARNING: Too new major version of the game, some features might behave incorrectly"
     else [])
  else if params.game_id = sdk.SCS_GAME_ID_ATS then
    (if params.game_version < sdk.SCS_TELEMETRY_ATS_GAME_VERSION_1_00 then
      log_line s "WARNING: Too old version of the game, some features might behave incorrectly"
     else []) ++
    (if sdk.SCS_GET_MAJOR_VERSION sdk.SCS_TELEMETRY_ATS_GAME_VERSION_CURRENT <
        sdk.SCS_GET_MAJOR_VERSION params.game_version then
      log_line s
        "WARNING: Too new major version of the game, some features might behave incorrectly"
     else [])
  else
    log_line s "WARNING: Unsupported game, some features or values might behave incorrectly"

/-- A chain `register_for_event(..) == SCS_RESULT_ok && ...`: the requests are made in
order and the chain stops at the first result that is not `ok`. -/
def register_events (params : scs_telemetry_init_params_v101_t) :
    List (scs_event_t × Callback) → Bool × List Effect
  | [] => (true, [])
  | (e, cb) :: rest =>
    if params.register_for_event e = scs_result_t.ok then
      ((register_events params rest).1,
        Effect.register_for_event e cb Context.null (params.register_for_event e) ::
          (register_events params rest).2)
    else
      (false, [Effect.register_for_event e cb Context.null (params.register_for_event e)])

/-- The four events of the chain `events_registered`. -/
def required_events : List (scs_event_t × Callback) :=
  [(scs_event_t.frame_start, Callback.telemetry_frame_start),
   (scs_event_t.frame_end, Callback.telemetry_frame_end),
   (scs_event_t.paused, Callback.telemetry_pause),
   (scs_event_t.started, Callback.telemetry_pause)]

/-- The registrations whose result is not looked at: two events, then the ten channels. -/
def unchecked_registrations (params : scs_telemetry_init_params_v101_t) : List Effect :=
  [ Effect.register_for_event scs_event_t.configuration Callback.telemetry_configuration
      Context.null (params.register_for_event scs_event_t.configuration),
    Effect.register_for_event scs_event_t.gameplay Callback.telemetry_gameplay_event
      Context.null (params.register_for_event scs_event_t.gameplay),
    Effect.register_for_channel Channel.world_placement scs_value_type_t.euler
      ChannelFlag.no_value Callback.telemetry_store_orientation Context.telemetry
      (params.register_for_channel Channel.world_placement),
    Effect.register_for_channel Channel.speed scs_value_type_t.float ChannelFlag.none
      Callback.telemetry_store_float (Context.float_member FloatField.speed)
      (params.register_for_channel Channel.speed),
    Effect.register_for_channel Channel.engine_rpm scs_value_type_t.float ChannelFlag.none
      Callback.telemetry_store_float (Context.float_member FloatField.rpm)
      (params.register_for_channel Channel.engine_rpm),
    Effect.register_for_channel Channel.engine_gear scs_value_type_t.s32 ChannelFlag.none
      Callback.telemetry_store_s32 (Context.int_member IntField.gear)
      (params.register_for_channel Channel.engine_gear),
    Effect.register_for_channel Channel.displayed_gear scs_value_type_t.s32 ChannelFlag.none
      Callback.telemetry_store_s32 (Context.int_member IntField.displayed_gear)
      (params.register_for_channel Channel.displayed_gear),
    Effect.register_for_channel Channel.input_steering scs_value_type_t.float ChannelFlag.none
      Callback.telemetry_store_float (Context.float_member FloatField.input_steering)
      (params.register_for_channel Channel.input_steering),
    Effect.register_for_channel Channel.input_throttle scs_value_type_t.float ChannelFlag.none
      Callback.telemetry_store_float (Context.float_member FloatField.input_throttle)
      (params.register_for_channel Channel.input_throttle),
    Effect.register_for_channel Channel.input_brake scs_value_type_t.float ChannelFlag.none
      Callback.telemetry_store_float (Context.float_member FloatField.input_brake)
      (params.register_for_channel Channel.input_brake),
    Effect.register_for_channel Channel.input_clutch scs_value_type_t.float ChannelFlag.none
      Callback.telemetry_store_float (Context.float_member FloatField.input_clutch)
      (params.register_for_channel Channel.input_clutch),
    Effect.register_for_channel Channel.cruise_control scs_value_type_t.float ChannelFlag.none
      Callback.telemetry_store_float (Context.float_member FloatField.cruise_control)
      (params.register_for_channel Channel.cruise_control) ]

/-- The function `scs_telemetry_init`: result, globals afterwards, calls made. -/
def scs_telemetry_init (sdk : SDK) (os : OS) (version : Nat)
    (params : scs_telemetry_init_params_v101_t) (s : Plugin) :
    scs_result_t × Plugin × List Effect :=
  if version ≠ sdk.SCS_TELEMETRY_VERSION_1_01 then (scs_result_t.unsupported, s, [])
  else
    let l := init_log os s
    if !l.1 then
      (scs_result_t.generic_error, l.2.1,
        l.2.2 ++ [Effect.host_log scs_log_type_t.error "Unable to initialize the log file"])
    else
      let u := udp_open os l.2.1
      let s2 := u.1
      let banner := log_line s2
        ("Game \x27" ++ params.game_id ++ "\x27 " ++
          Nat.repr (sdk.SCS_GET_MAJOR_VERSION params.game_version) ++ "." ++
          Nat.repr (sdk.SCS_GET_MINOR_VERSION params.game_version))
      let warnings := game_version_warnings sdk params s2
      let r := register_events params required_events
      if !r.1 then
        (scs_result_t.generic_error, s2,
          l.2.2 ++ u.2 ++ banner ++ warnings ++ r.2 ++
            [Effect.host_log scs_log_type_t.error "Unable to register event callbacks"])
      else
        (scs_result_t.ok,
          { s2 with
            game_log := true
            telemetry := telemetry_state_t.zeroed
            print_header := true
            last_timestamp := TIMESTAMP_UNSET
            output_paused := true },
          l.2.2 ++ u.2 ++ banner ++ warnings ++ r.2 ++ unchecked_registrations params ++
            [Effect.host_log scs_log_type_t.message
              "Initializing ETS2 telemetry UDP JSON plugin"])

/-- The function `scs_telemetry_shutdown`. -/
def scs_telemetry_shutdown (s : Plugin) : Plugin × List Effect :=
  let s1 := { s with game_log := false }
  let c := udp_close s1
  let f := finish_log c.1
  (f.1, c.2 ++ f.2)

/-! ## The host delivering channel values -/

/-- One value delivered on one of the registered channels. -/
inductive ChannelUpdate
  | world_placement (value : Option scs_value_euler_t)
  | speed (value : F32)
  | engine_rpm (value : F32)
  | engine_gear (value : Int)
  | displayed_gear (value : Int)
  | input_steering (value : F32)
  | input_throttle (value : F32)
  | input_brake (value : F32)
  | input_clutch (value : F32)
  | cruise_control (value : F32)
deriving DecidableEq, Repr

/-- The host calls the callback registered for the channel with the context registered
with it (the table is the one of `unchecked_registrations`). -/
def channel_update (u : ChannelUpdate) (s : Plugin) : Plugin × List Effect :=
  match u with
  | .world_placement v => telemetry_store_orientation v s
  | .speed v => telemetry_store_float v FloatField.speed s
  | .engine_rpm v => telemetry_store_float v FloatField.rpm s
  | .engine_gear v => telemetry_store_s32 v IntField.gear s
  | .displayed_gear v => telemetry_store_s32 v IntField.displayed_gear s
  | .input_steering v => telemetry_store_float v FloatField.input_steering s
  | .input_throttle v => telemetry_store_float v FloatField.input_throttle s
  | .input_brake v => telemetry_store_float v FloatField.input_brake s
  | .input_clutch v => telemetry_store_float v FloatField.input_clutch s
  | .cruise_control v => telemetry_store_float v FloatField.cruise_control s

/-- The nine scalar channels: every channel but the orientation. -/
def ChannelUpdate.is_scalar : ChannelUpdate → Bool
  | .world_placement _ => false
  | _ => true

/-- The globals after a sequence of channel values, delivered in order. -/
def channel_updates (s : Plugin) (us : List ChannelUpdate) : Plugin :=
  us.foldl (fun st u => (channel_update u st).1) s

/-- The globals after a sequence of frame-start events, delivered in order. -/
def frame_starts (sdk : SDK) (s : Plugin) (infos : List scs_telemetry_frame_start_t) :
    Plugin :=
  infos.foldl (fun st i => telemetry_frame_start sdk i st) s

/-- Number of datagrams handed to `sendto` in a trace. -/
def datagrams (fx : List Effect) : Nat :=
  fx.countP (fun e => match e with
    | Effect.sendto _ _ _ _ => true
    | _ => false)

/-- A frame-start event that carries nothing but its paused-simulation timestamp. -/
def plain_frame (t : Nat) : scs_telemetry_frame_start_t := ⟨0, 0, 0, t⟩

/-- A frame-start event with the given flags and paused-simulation timestamp. -/
def flagged_frame (flags t : Nat) : scs_telemetry_frame_start_t := ⟨flags, 0, 0, t⟩

/-! ## Concrete environments and inputs -/

/-- A demonstration host: every registration succeeds. -/
def demo_params : scs_telemetry_init_params_v101_t where
  game_id := "eut2"
  game_version := 65554
  register_for_event := fun _ => scs_result_t.ok
  register_for_channel := fun _ => scs_result_t.ok

/-- A demonstration environment: the log opens and `socket` returns descriptor 3. -/
def demo_os : OS := ⟨true, 3⟩

/-- The globals after load and one successful initialisation in the demonstration
environment. -/
def demo_session : Plugin :=
  (scs_telemetry_init scssdk demo_os 65537 demo_params Plugin.loaded).2.1

/-- A snapshot of extreme values: every float `-FLT_MAX`, both integers `INT_MIN`. -/
def extreme_snapshot : Plugin :=
  { Plugin.loaded with
    g_udp_ready := true
    g_udp_fd := 3
    g_udp_speed := ⟨true, 254, 8388607⟩
    g_udp_rpm := ⟨true, 254, 8388607⟩
    telemetry := { telemetry_state_t.zeroed with
      gear := -2147483648
      displayed_gear := -2147483648
      input_steering := ⟨true, 254, 8388607⟩
      input_throttle := ⟨true, 254, 8388607⟩
      input_brake := ⟨true, 254, 8388607⟩
      input_clutch := ⟨true, 254, 8388607⟩
      cruise_control := ⟨true, 254, 8388607⟩ } }

/-- Number of calls in a trace that release a resource (`close` of a socket, `fclose`). -/
def releases (fx : List Effect) : Nat :=
  fx.countP (fun e => match e with
    | Effect.close _ => true
    | Effect.fclose => true
    | _ => false)

/-- A host whose registration of the frame-start event fails; everything else succeeds. -/
def failing_event_params : scs_telemetry_init_params_v101_t where
  game_id := "eut2"
  game_version := 65554
  register_for_event := fun e =>
    if e = scs_event_t.frame_start then scs_result_t.generic_error else scs_result_t.ok
  register_for_channel := fun _ => scs_result_t.ok

/-- A host whose channel registrations all fail; the event registrations succeed. -/
def failing_channel_params : scs_telemetry_init_params_v101_t where
  game_id := "eut2"
  game_version := 65554
  register_for_event := fun _ => scs_result_t.ok
  register_for_channel := fun _ => scs_result_t.generic_error

/-! ## What the message should show -/

/-- The float a delivered value applies to the channel `c`, when it is a value of `c`. -/
def ChannelUpdate.float_on (c : Channel) (u : ChannelUpdate) : Option F32 :=
  match c, u with
  | .speed, .speed v => some v
  | .engine_rpm, .engine_rpm v => some v
  | .input_steering, .input_steering v => some v
  | .input_throttle, .input_throttle v => some v
  | .input_brake, .input_brake v => some v
  | .input_clutch, .input_clutch v => some v
  | .cruise_control, .cruise_control v => some v
  | _, _ => none

/-- The integer a delivered value applies to the channel `c`, when it is a value of `c`. -/
def ChannelUpdate.s32_on (c : Channel) (u : ChannelUpdate) : Option Int :=
  match c, u with
  | .engine_gear, .engine_gear v => some v
  | .displayed_gear, .displayed_gear v => some v
  | _, _ => none

/-- Follows the spec's words: the value most recently applied to the float field of
channel `c` in the sequence `us`, and zero when the field was not updated. -/
def latest_float (c : Channel) (us : List ChannelUpdate) : F32 :=
  (us.reverse.findSome? (ChannelUpdate.float_on c)).getD F32.zero

/-- Follows the spec's words: the value most recently applied to the integer field of
channel `c` in the sequence `us`, and zero when the field was not updated. -/
def latest_s32 (c : Channel) (us : List ChannelUpdate) : Int :=
  (us.reverse.findSome? (ChannelUpdate.s32_on c)).getD 0

/-- The same value with negative zero written as zero. -/
def F32.unsigned_zero (x : F32) : F32 := if x = F32.neg_zero then F32.zero else x

/-- Follows the spec's words: the wire message showing, for each of the nine fields, the
latest value applied in `us` (speed with negative zero written as zero). -/
def latest_message (us : List ChannelUpdate) : String :=
  snprintf_json (latest_float Channel.speed us).unsigned_zero
    (latest_float Channel.engine_rpm us)
    (latest_s32 Channel.engine_gear us) (latest_s32 Channel.displayed_gear us)
    (latest_float Channel.input_steering us) (latest_float Channel.input_throttle us)
    (latest_float Channel.input_brake us) (latest_float Channel.input_clutch us)
    (latest_float Channel.cruise_control us)

/-- The integers of a delivered value are 32-bit integers (`scs_s32_t`). -/
def ChannelUpdate.well_typed : ChannelUpdate → Prop
  | .engine_gear v => is_s32 v
  | .displayed_gear v => is_s32 v
  | _ => True

instance (u : ChannelUpdate) : Decidable u.well_typed := by
  cases u <;> unfold ChannelUpdate.well_typed <;> infer_instance

/-- The globals agree with the latest values of the sequence `us`. -/
def Tracks (s : Plugin) (us : List ChannelUpdate) : Prop :=
  s.g_udp_speed = latest_float Channel.speed us ∧
  s.g_udp_rpm = latest_float Channel.engine_rpm us ∧
  s.telemetry.gear = latest_s32 Channel.engine_gear us ∧
  s.telemetry.displayed_gear = latest_s32 Channel.displayed_gear us ∧
  s.telemetry.input_steering = latest_float Channel.input_steering us ∧
  s.telemetry.input_throttle = latest_float Channel.input_throttle us ∧
  s.telemetry.input_brake = latest_float Channel.input_brake us ∧
  s.telemetry.input_clutch = latest_float Channel.input_clutch us ∧
  s.telemetry.cruise_control = latest_float Channel.cruise_control us ∧
  is_s32 s.telemetry.gear ∧ is_s32 s.telemetry.displayed_gear

/-- The float `27.778f`. -/
def f32_27_778 : F32 := ⟨false, 131, 6175064⟩

/-- The float `1500.0f`. -/
def f32_1500 : F32 := ⟨false, 137, 3899392⟩

/-- The loopback destination `udp_open` sets. -/
def loopback : sockaddr_in := ⟨AF_INET, 49001, INADDR_LOOPBACK⟩

/-- The datagram the end-to-end example of the spec expects after `speed = 27.778`. -/
def expected_first_datagram : String :=
  "\x7b\"speed\":27.778,\"rpm\":0.0,\"gear\":0,\"dgear\":0,\"steer\":0.000,\"throttle\":0.000,\"brake\":0.000,\"clutch\":0.000,\"cruise\":0.000\x7d\n"

/-- The datagram sent after `speed = 27.778` in a second session, when the first session
saw `rpm = 1500`. -/
def stale_rpm_datagram : String :=
  "\x7b\"speed\":27.778,\"rpm\":1500.0,\"gear\":0,\"dgear\":0,\"steer\":0.000,\"throttle\":0.000,\"brake\":0.000,\"clutch\":0.000,\"cruise\":0.000\x7d\n"

/-- The datagram sent when all seven float fields hold negative zero. -/
def negative_zero_datagram : String :=
  "\x7b\"speed\":0.000,\"rpm\":-0.0,\"gear\":0,\"dgear\":0,\"steer\":-0.000,\"throttle\":-0.000,\"brake\":-0.000,\"clutch\":-0.000,\"cruise\":-0.000\x7d\n"

/-- The globals of a second session: load, init, `rpm = 1500`, shutdown, init again. -/
def second_session : Plugin :=
  (scs_telemetry_init scssdk demo_os 65537 demo_params
    (scs_telemetry_shutdown
      (channel_update (ChannelUpdate.engine_rpm f32_1500) demo_session).1).1).2.1

/-- Six values of negative zero, one for each float channel but the speed. -/
def negative_zero_updates : List ChannelUpdate :=
  [ChannelUpdate.engine_rpm F32.neg_zero, ChannelUpdate.input_steering F32.neg_zero,
   ChannelUpdate.input_throttle F32.neg_zero, ChannelUpdate.input_brake F32.neg_zero,
   ChannelUpdate.input_clutch F32.neg_zero, ChannelUpdate.cruise_control F32.neg_zero]

/-! ## Facts about initialisation -/

theorem register_events_required_ok (params : scs_telemetry_init_params_v101_t) :
    (register_events params required_events).1 = true ↔
      ∀ p ∈ required_events, params.register_for_event p.1 = scs_result_t.ok := by
  simp only [required_events, register_events]
  by_cases h1 : params.register_for_event scs_event_t.frame_start = scs_result_t.ok <;>
  by_cases h2 : params.register_for_event scs_event_t.frame_end = scs_result_t.ok <;>
  by_cases h3 : params.register_for_event scs_event_t.paused = scs_result_t.ok <;>
  by_cases h4 : params.register_for_event scs_event_t.started = scs_result_t.ok <;>
  simp [h1, h2, h3, h4]

/-- The globals after an initialisation that returned `ok`. -/
theorem init_ok_state (sdk : SDK) (os : OS) (version : Nat)
    (params : scs_telemetry_init_params_v101_t) (s : Plugin)
    (h : (scs_telemetry_init sdk os version params s).1 = scs_result_t.ok) :
    (scs_telemetry_init sdk os version params s).2.1 =
      { (udp_open os { s with log_file := true }).1 with
        game_log := true
        telemetry := telemetry_state_t.zeroed
        print_header := true
        last_timestamp := TIMESTAMP_UNSET
        output_paused := true } := by
  unfold scs_telemetry_init at h ⊢
  by_cases hv : version ≠ sdk.SCS_TELEMETRY_VERSION_1_01
  · simp [hv] at h
  · by_cases hl : (init_log os s).1 = true
    · by_cases hr : (register_events params required_events).1 = true
      · have hs : (init_log os s).2.1 = { s with log_file := true } := by
          unfold init_log at hl ⊢
          by_cases h1 : s.log_file = true
          · cases s; simp_all
          · by_cases h2 : os.fopen_ok = true <;> simp_all
        simp [hv, hl, hr, hs]
      · simp [hv, hl, hr] at h
    · simp [hv, hl] at h

/-! ## Frame timing -/

/-- One frame-start event, spelled out on the two fields of the accumulator. -/
theorem telemetry_frame_start_fields (sdk : SDK) (info : scs_telemetry_frame_start_t)
    (s : Plugin) :
    (telemetry_frame_start sdk info s).last_timestamp = info.paused_simulation_time ∧
    (telemetry_frame_start sdk info s).telemetry.timestamp =
      (s.telemetry.timestamp +
        (info.paused_simulation_time + 2 ^ 64 -
          (if info.flags &&& sdk.SCS_TELEMETRY_FRAME_START_FLAG_timer_restart ≠ 0 then 0
           else if s.last_timestamp = TIMESTAMP_UNSET then info.paused_simulation_time
           else s.last_timestamp)) % 2 ^ 64) % 2 ^ 64 := by
  simp [telemetry_frame_start]

theorem frame_starts_snoc (sdk : SDK) (s : Plugin) (infos : List scs_telemetry_frame_start_t)
    (i : scs_telemetry_frame_start_t) :
    frame_starts sdk s (infos ++ [i]) = telemetry_frame_start sdk i (frame_starts sdk s infos) := by
  simp [frame_starts, List.foldl_append]

/-- C7: after a successful init, a non-empty run of frame-start events without the
timer-restart flag and without the sentinel timestamp leaves, after the k-th event, the
accumulated time `(t_k - t_0) mod 2^64` and the baseline `t_k`. -/
theorem frame_time_accumulates (sdk : SDK) (os : OS) (version : Nat)
    (params : scs_telemetry_init_params_v101_t) (s : Plugin)
    (hinit : (scs_telemetry_init sdk os version params s).1 = scs_result_t.ok)
    (infos : List scs_telemetry_frame_start_t)
    (hflags : ∀ i ∈ infos,
      i.flags &&& sdk.SCS_TELEMETRY_FRAME_START_FLAG_timer_restart = 0)
    (hts : ∀ i ∈ infos, i.paused_simulation_time < TIMESTAMP_UNSET)
    (k : Nat) (hk : k < infos.length) :
    ((frame_starts sdk (scs_telemetry_init sdk os version params s).2.1
        (infos.take (k + 1))).telemetry.timestamp : Int) =
      ((infos[k].paused_simulation_time : Int) - (infos[0].paused_simulation_time : Int))
        % 2 ^ 64 ∧
    (frame_starts sdk (scs_telemetry_init sdk os version params s).2.1
        (infos.take (k + 1))).last_timestamp = infos[k].paused_simulation_time := by
  have h0 := init_ok_state sdk os version params s hinit
  induction k with
  | zero =>
    have ht : infos.take 1 = [] ++ [infos[0]] := by
      cases infos with
      | nil => simp at hk
      | cons a l => simp
    rw [ht, frame_starts_snoc]
    have hf := hflags infos[0] (List.getElem_mem _)
    obtain ⟨h1, h2⟩ := telemetry_frame_start_fields sdk infos[0]
      (frame_starts sdk (scs_telemetry_init sdk os version params s).2.1 [])
    refine ⟨?_, h1⟩
    rw [h2]
    simp [hf, frame_starts, h0, telemetry_state_t.zeroed]
  | succ n ih =>
    have hn : n < infos.length := by omega
    obtain ⟨ih1, ih2⟩ := ih hn
    have ht : infos.take (n + 1 + 1) = infos.take (n + 1) ++ [infos[n + 1]] := by
      rw [List.take_succ, List.getElem?_eq_getElem hk]; rfl
    rw [ht, frame_starts_snoc]
    have hf := hflags infos[n + 1] (List.getElem_mem _)
    have hb := hts infos[n] (List.getElem_mem _)
    have hc := hts infos[n + 1] (List.getElem_mem _)
    have hz := hts infos[0] (List.getElem_mem _)
    obtain ⟨h1, h2⟩ := telemetry_frame_start_fields sdk infos[n + 1]
      (frame_starts sdk (scs_telemetry_init sdk os version params s).2.1 (infos.take (n + 1)))
    refine ⟨?_, h1⟩
    rw [h2, ih2]
    have hne : infos[n].paused_simulation_time ≠ TIMESTAMP_UNSET := by omega
    simp only [hf, ne_eq, not_true_eq_false, if_false, hne]
    unfold TIMESTAMP_UNSET at hb hc hz
    omega

/-- C7, the run 100, 150, 200 from the demonstration session: accumulated 0, 50, 100. -/
theorem frame_time_accumulates_witness :
    (scs_telemetry_init scssdk demo_os 65537 demo_params Plugin.loaded).1 = scs_result_t.ok ∧
    (∀ i ∈ [plain_frame 100, plain_frame 150, plain_frame 200],
      i.flags &&& scssdk.SCS_TELEMETRY_FRAME_START_FLAG_timer_restart = 0) ∧
    (∀ i ∈ [plain_frame 100, plain_frame 150, plain_frame 200],
      i.paused_simulation_time < TIMESTAMP_UNSET) ∧
    ((frame_starts scssdk demo_session [plain_frame 100]).telemetry.timestamp : Int) = 0 ∧
    ((frame_starts scssdk demo_session
        [plain_frame 100, plain_frame 150]).telemetry.timestamp : Int) = 50 ∧
    ((frame_starts scssdk demo_session
        [plain_frame 100, plain_frame 150, plain_frame 200]).telemetry.timestamp : Int) = 100 ∧
    (frame_starts scssdk demo_session
        [plain_frame 100, plain_frame 150, plain_frame 200]).last_timestamp = 200 := by
  have hinit : (scs_telemetry_init scssdk demo_os 65537 demo_params Plugin.loaded).1 =
      scs_result_t.ok := by decide
  have hflags : ∀ i ∈ [plain_frame 100, plain_frame 150, plain_frame 200],
      i.flags &&& scssdk.SCS_TELEMETRY_FRAME_START_FLAG_timer_restart = 0 := by decide
  have hts : ∀ i ∈ [plain_frame 100, plain_frame 150, plain_frame 200],
      i.paused_simulation_time < TIMESTAMP_UNSET := by decide
  have a0 := frame_time_accumulates scssdk demo_os 65537 demo_params Plugin.loaded hinit
    [plain_frame 100, plain_frame 150, plain_frame 200] hflags hts 0 (by decide)
  have a1 := frame_time_accumulates scssdk demo_os 65537 demo_params Plugin.loaded hinit
    [plain_frame 100, plain_frame 150, plain_frame 200] hflags hts 1 (by decide)
  have a2 := frame_time_accumulates scssdk demo_os 65537 demo_params Plugin.loaded hinit
    [plain_frame 100, plain_frame 150, plain_frame 200] hflags hts 2 (by decide)
  exact ⟨hinit, hflags, hts, a0.1, a1.1, a2.1, a2.2⟩

/-- C8 (as the code behaves): a frame-start event with the timer-restart flag sets the
baseline to the incoming timestamp and advances the accumulated time by the whole
incoming timestamp, modulo 2^64, whatever the previous baseline; it does not reset it. -/
theorem restart_advances_by_timestamp (sdk : SDK) (info : scs_telemetry_frame_start_t)
    (s : Plugin)
    (hflag : info.flags &&& sdk.SCS_TELEMETRY_FRAME_START_FLAG_timer_restart ≠ 0) :
    (telemetry_frame_start sdk info s).telemetry.timestamp =
      (s.telemetry.timestamp + info.paused_simulation_time) % 2 ^ 64 ∧
    (telemetry_frame_start sdk info s).last_timestamp = info.paused_simulation_time := by
  obtain ⟨h1, h2⟩ := telemetry_frame_start_fields sdk info s
  refine ⟨?_, h1⟩
  rw [h2, if_pos hflag]
  omega

/-- C8, amended, on the run 100, 150, then 200 with the restart flag: the accumulated
time after the third event is 50 + 200. -/
theorem restart_advances_by_timestamp_witness :
    (flagged_frame 1 200).flags &&&
      scssdk.SCS_TELEMETRY_FRAME_START_FLAG_timer_restart ≠ 0 ∧
    (frame_starts scssdk demo_session [plain_frame 100, plain_frame 150]).telemetry.timestamp
      = 50 ∧
    (telemetry_frame_start scssdk (flagged_frame 1 200)
      (frame_starts scssdk demo_session
        [plain_frame 100, plain_frame 150])).telemetry.timestamp = 250 ∧
    (telemetry_frame_start scssdk (flagged_frame 1 200)
      (frame_starts scssdk demo_session
        [plain_frame 100, plain_frame 150])).last_timestamp = 200 :=
  ⟨by decide, by decide,
   (restart_advances_by_timestamp scssdk (flagged_frame 1 200)
      (frame_starts scssdk demo_session [plain_frame 100, plain_frame 150]) (by decide)).1,
   (restart_advances_by_timestamp scssdk (flagged_frame 1 200)
      (frame_starts scssdk demo_session [plain_frame 100, plain_frame 150]) (by decide)).2⟩

/-- C8 as stated fails: after 100, 150 and then 200 with the restart flag the accumulated
values are 0, 50, 250, so the restart event does not leave the accumulated time at zero. -/
theorem restart_does_not_reset :
    (flagged_frame 1 200).flags &&&
      scssdk.SCS_TELEMETRY_FRAME_START_FLAG_timer_restart ≠ 0 ∧
    (frame_starts scssdk demo_session [plain_frame 100]).telemetry.timestamp = 0 ∧
    (frame_starts scssdk demo_session [plain_frame 100, plain_frame 150]).telemetry.timestamp
      = 50 ∧
    (frame_starts scssdk demo_session
      [plain_frame 100, plain_frame 150, flagged_frame 1 200]).telemetry.timestamp = 250 ∧
    (frame_starts scssdk demo_session
      [plain_frame 100, plain_frame 150, flagged_frame 1 200]).telemetry.timestamp ≠ 0 := by
  decide

/-- C10 (as the code behaves): a frame-start event without the restart flag whose
timestamp is not below the baseline in force (the recorded one, or the incoming timestamp
when none is recorded) adds the difference to the accumulated time; when that sum stays
below 2^64 the accumulated time does not decrease. -/
theorem frame_time_monotone (sdk : SDK) (info : scs_telemetry_frame_start_t) (s : Plugin)
    (hflag : info.flags &&& sdk.SCS_TELEMETRY_FRAME_START_FLAG_timer_restart = 0)
    (hback : s.last_timestamp = TIMESTAMP_UNSET ∨
      s.last_timestamp ≤ info.paused_simulation_time)
    (hwrap : s.last_timestamp = TIMESTAMP_UNSET ∨
      s.telemetry.timestamp + (info.paused_simulation_time - s.last_timestamp) < 2 ^ 64)
    (hacc : s.telemetry.timestamp < 2 ^ 64) :
    s.telemetry.timestamp ≤ (telemetry_frame_start sdk info s).telemetry.timestamp ∧
    (telemetry_frame_start sdk info s).telemetry.timestamp =
      s.telemetry.timestamp +
        (if s.last_timestamp = TIMESTAMP_UNSET then 0
         else info.paused_simulation_time - s.last_timestamp) := by
  obtain ⟨_, h2⟩ := telemetry_frame_start_fields sdk info s
  rw [h2]
  simp only [hflag, ne_eq, not_true_eq_false, if_false]
  by_cases hu : s.last_timestamp = TIMESTAMP_UNSET
  · simp only [hu, if_true]
    omega
  · simp only [hu, if_false]
    rcases hback with hb | hb
    · exact absurd hb hu
    · rcases hwrap with hw | hw
      · exact absurd hw hu
      · omega

/-- C10, amended, on the second event of the run 100, 150. -/
theorem frame_time_monotone_witness :
    (plain_frame 150).flags &&& scssdk.SCS_TELEMETRY_FRAME_START_FLAG_timer_restart = 0 ∧
    (frame_starts scssdk demo_session [plain_frame 100]).telemetry.timestamp ≤
      (telemetry_frame_start scssdk (plain_frame 150)
        (frame_starts scssdk demo_session [plain_frame 100])).telemetry.timestamp :=
  ⟨by decide,
   (frame_time_monotone scssdk (plain_frame 150)
      (frame_starts scssdk demo_session [plain_frame 100])
      (by decide) (Or.inr (by decide)) (Or.inr (by decide)) (by decide)).1⟩

/-- C10 as stated fails: after init, the frame-start events 100, 50, 110, none with the
restart flag, give the accumulated times 0, 2^64 - 50 and 10: the third event, which is
not a restart, makes the accumulated time smaller. -/
theorem frame_time_can_decrease :
    (∀ i ∈ [plain_frame 100, plain_frame 50, plain_frame 110],
      i.flags &&& scssdk.SCS_TELEMETRY_FRAME_START_FLAG_timer_restart = 0) ∧
    (frame_starts scssdk demo_session [plain_frame 100, plain_frame 50]).telemetry.timestamp
      = 18446744073709551566 ∧
    (telemetry_frame_start scssdk (plain_frame 110)
      (frame_starts scssdk demo_session
        [plain_frame 100, plain_frame 50])).telemetry.timestamp = 10 ∧
    (telemetry_frame_start scssdk (plain_frame 110)
      (frame_starts scssdk demo_session
        [plain_frame 100, plain_frame 50])).telemetry.timestamp <
      (frame_starts scssdk demo_session
        [plain_frame 100, plain_frame 50]).telemetry.timestamp := by
  decide

/-! ## Shutdown -/

/-- C9: a second `scs_telemetry_shutdown` leaves the globals of the first one (socket
closed and not ready, log closed, host log handle cleared) and makes no call at all: it
closes nothing and writes nothing. -/
theorem shutdown_idempotent (s : Plugin) :
    (scs_telemetry_shutdown (scs_telemetry_shutdown s).1).1 = (scs_telemetry_shutdown s).1 ∧
    (scs_telemetry_shutdown (scs_telemetry_shutdown s).1).2 = [] ∧
    (scs_telemetry_shutdown s).1.g_udp_fd = -1 ∧
    (scs_telemetry_shutdown s).1.g_udp_ready = false ∧
    (scs_telemetry_shutdown s).1.log_file = false ∧
    (scs_telemetry_shutdown s).1.game_log = false := by
  cases hl : s.log_file <;>
  simp [scs_telemetry_shutdown, udp_close, finish_log, hl]

/-! ## Length of the message -/

theorem round_half_even_le (n d : Nat) : round_half_even n d ≤ n / d + 1 := by
  unfold round_half_even
  dsimp only
  split <;> omega

theorem pad_zeros_length (w : Nat) (s : String) (h : s.length ≤ w) :
    (pad_zeros w s).length = w := by
  have hr : (String.mk (List.replicate (w - s.length) '0')).length = w - s.length := by
    show (List.replicate (w - s.length) '0').length = w - s.length
    exact List.length_replicate _ _
  rw [pad_zeros, String.length_append, hr]
  omega

theorem F32.significand_scale_lt (x : F32) (h : x.exponent.val ≠ 255) :
    x.significand * 2 ^ x.scale < 2 ^ 278 := by
  have hm : x.mantissa.val < 8388608 := x.mantissa.isLt
  have he : x.exponent.val < 256 := x.exponent.isLt
  have h1 : x.significand < 2 ^ 24 := by
    unfold F32.significand; split <;> omega
  have h2 : x.scale ≤ 254 := by
    unfold F32.scale; split <;> omega
  have h3 : 2 ^ x.scale ≤ 2 ^ 254 := Nat.pow_le_pow_right (by decide) h2
  calc x.significand * 2 ^ x.scale
      ≤ x.significand * 2 ^ 254 := Nat.mul_le_mul_left _ h3
    _ < 2 ^ 24 * 2 ^ 254 := Nat.mul_lt_mul_of_pos_right h1 (by positivity)
    _ = 2 ^ 278 := by norm_num

/-- The conversion `%.<prec>f` of a float takes at most `41 + prec` characters: a sign, at
most 39 digits before the point, the point and `prec` digits. -/
theorem printf_f_length (prec : Nat) (hp : 0 < prec) (x : F32) :
    (printf_f prec x).length ≤ 41 + prec := by
  have hs : (if x.sign then "-" else "").length ≤ 1 := by
    cases x.sign <;> decide
  unfold printf_f
  dsimp only
  by_cases h : x.exponent.val = 255
  · rw [if_pos h, String.length_append]
    have : (if x.mantissa.val = 0 then "inf" else "nan").length = 3 := by
      split <;> rfl
    omega
  · rw [if_neg h, if_neg (by omega : ¬ prec = 0)]
    have hpow : 0 < 10 ^ prec := by positivity
    have hN := F32.significand_scale_lt x h
    have hq := round_half_even_le (x.significand * 2 ^ x.scale * 10 ^ prec) (2 ^ 150)
    have hdiv : x.significand * 2 ^ x.scale * 10 ^ prec / 2 ^ 150 < 2 ^ 128 * 10 ^ prec := by
      rw [Nat.div_lt_iff_lt_mul (by positivity)]
      calc x.significand * 2 ^ x.scale * 10 ^ prec
          < 2 ^ 278 * 10 ^ prec := Nat.mul_lt_mul_of_pos_right hN hpow
        _ = 2 ^ 128 * 10 ^ prec * 2 ^ 150 := by ring
    have hint : round_half_even (x.significand * 2 ^ x.scale * 10 ^ prec) (2 ^ 150) / 10 ^ prec
        < 10 ^ 39 := by
      have : round_half_even (x.significand * 2 ^ x.scale * 10 ^ prec) (2 ^ 150) / 10 ^ prec
          ≤ 2 ^ 128 := by
        apply Nat.div_le_of_le_mul
        have hc : 10 ^ prec * 2 ^ 128 = 2 ^ 128 * 10 ^ prec := Nat.mul_comm _ _
        omega
      have h128 : (2 : Nat) ^ 128 < 10 ^ 39 := by norm_num
      omega
    have hfrac : round_half_even (x.significand * 2 ^ x.scale * 10 ^ prec) (2 ^ 150) % 10 ^ prec
        < 10 ^ prec := Nat.mod_lt _ hpow
    have l1 := Nat.repr_length _ 39 (by decide) hint
    have l2 := Nat.repr_length _ prec hp hfrac
    have l3 := pad_zeros_length prec _ l2
    simp only [String.length_append, l3]
    have : ".".length = 1 := rfl
    omega

/-- The conversion `%d` of a 32-bit integer takes at most 11 characters. -/
theorem printf_d_length (i : Int) (h : is_s32 i) : (printf_d i).length ≤ 11 := by
  obtain ⟨h1, h2⟩ := h
  have hn : i.natAbs < 10 ^ 10 := by omega
  have l := Nat.repr_length _ 10 (by decide) hn
  unfold printf_d
  split
  · rw [String.length_append]
    have : "-".length = 1 := rfl
    omega
  · omega

/-- The formatted message has between 1 and 413 characters. -/
theorem snprintf_json_length (speed rpm : F32) (gear displayed_gear : Int)
    (steer throttle brake clutch cruise : F32)
    (hg : is_s32 gear) (hd : is_s32 displayed_gear) :
    0 < (snprintf_json speed rpm gear displayed_gear steer throttle brake clutch cruise).length ∧
    (snprintf_json speed rpm gear displayed_gear steer throttle brake clutch cruise).length
      ≤ 413 := by
  have a1 := printf_f_length 3 (by decide) speed
  have a2 := printf_f_length 1 (by decide) rpm
  have a3 := printf_d_length gear hg
  have a4 := printf_d_length displayed_gear hd
  have a5 := printf_f_length 3 (by decide) steer
  have a6 := printf_f_length 3 (by decide) throttle
  have a7 := printf_f_length 3 (by decide) brake
  have a8 := printf_f_length 3 (by decide) clutch
  have a9 := printf_f_length 3 (by decide) cruise
  have c1 : "\x7b\"speed\":".length = 9 := rfl
  have c2 : ",\"rpm\":".length = 7 := rfl
  have c3 : ",\"gear\":".length = 8 := rfl
  have c4 : ",\"dgear\":".length = 9 := rfl
  have c5 : ",\"steer\":".length = 9 := rfl
  have c6 : ",\"throttle\":".length = 12 := rfl
  have c7 : ",\"brake\":".length = 9 := rfl
  have c8 : ",\"clutch\":".length = 10 := rfl
  have c9 : ",\"cruise\":".length = 10 := rfl
  have c10 : "\x7d\n".length = 2 := rfl
  simp only [snprintf_json, String.length_append, c1, c2, c3, c4, c5, c6, c7, c8, c9, c10]
  omega

/-- The message is never empty, whatever the integers are. -/
theorem snprintf_json_length_pos (speed rpm : F32) (gear displayed_gear : Int)
    (steer throttle brake clutch cruise : F32) :
    0 < (snprintf_json speed rpm gear displayed_gear steer throttle brake clutch cruise).length
    := by
  have c1 : "\x7b\"speed\":".length = 9 := rfl
  simp only [snprintf_json, String.length_append, c1]
  omega

/-- With the socket ready, `udp_send_json` makes exactly one call of `sendto`. -/
theorem udp_send_json_ready (s : Plugin) (h : s.g_udp_ready = true) :
    udp_send_json s = [Effect.sendto s.g_udp_fd (String.mk ((json_text s).data.take 511))
      (json_text s).length s.g_udp_addr] := by
  have hpos : 0 < (json_text s).length := snprintf_json_length_pos _ _ _ _ _ _ _ _ _
  simp [udp_send_json, h, hpos]

theorem udp_send_json_not_ready (s : Plugin) (h : s.g_udp_ready = false) :
    udp_send_json s = [] := by
  simp [udp_send_json, h]

/-- With 32-bit integers in the snapshot the text fits the buffer of 512 bytes. -/
theorem json_text_fits (s : Plugin)
    (hg : is_s32 s.telemetry.gear) (hd : is_s32 s.telemetry.displayed_gear) :
    (json_text s).length ≤ 413 ∧ String.mk ((json_text s).data.take 511) = json_text s := by
  have hlen : (json_text s).length ≤ 413 := (snprintf_json_length _ _ _ _ _ _ _ _ _ hg hd).2
  refine ⟨hlen, ?_⟩
  have : (json_text s).data.length ≤ 511 := by
    have := hlen
    simp only [String.length] at this
    omega
  rw [List.take_of_length_le this]

/-- With 32-bit integers in the snapshot and the socket ready, `sendto` gets the whole
text. -/
theorem udp_send_json_whole (s : Plugin)
    (hg : is_s32 s.telemetry.gear) (hd : is_s32 s.telemetry.displayed_gear)
    (hr : s.g_udp_ready = true) :
    udp_send_json s =
      [Effect.sendto s.g_udp_fd (json_text s) (json_text s).length s.g_udp_addr] := by
  rw [udp_send_json_ready s hr, (json_text_fits s hg hd).2]

/-- C4: for every snapshot of 32-bit values the text formatted by `udp_send_json` has at
most 511 characters (at most 413, in fact), so the buffer holds all of it, and the call
of `sendto` gets the whole text with its own length. -/
theorem json_fits_buffer (s : Plugin)
    (hg : is_s32 s.telemetry.gear) (hd : is_s32 s.telemetry.displayed_gear) :
    (json_text s).length ≤ 511 ∧
    String.mk ((json_text s).data.take 511) = json_text s ∧
    (s.g_udp_ready = true →
      udp_send_json s =
        [Effect.sendto s.g_udp_fd (json_text s) (json_text s).length s.g_udp_addr]) := by
  obtain ⟨h1, h2⟩ := json_text_fits s hg hd
  exact ⟨by omega, h2, udp_send_json_whole s hg hd⟩

/-- C4 on the snapshot of extreme values. -/
theorem json_fits_buffer_witness :
    is_s32 extreme_snapshot.telemetry.gear ∧
    is_s32 extreme_snapshot.telemetry.displayed_gear ∧
    (json_text extreme_snapshot).length ≤ 511 ∧
    String.mk ((json_text extreme_snapshot).data.take 511) = json_text extreme_snapshot :=
  ⟨by decide, by decide,
   (json_fits_buffer extreme_snapshot (by decide) (by decide)).1,
   (json_fits_buffer extreme_snapshot (by decide) (by decide)).2.1⟩

/-! ## When a datagram is sent -/

theorem datagrams_udp_send_json (s : Plugin) :
    datagrams (udp_send_json s) = if s.g_udp_ready = true then 1 else 0 := by
  cases h : s.g_udp_ready
  · simp [udp_send_json_not_ready s h, datagrams]
  · simp [udp_send_json_ready s h, datagrams]

theorem telemetry_store_orientation_effects (v : Option scs_value_euler_t) (s : Plugin) :
    (telemetry_store_orientation v s).2 = [] := by
  cases v <;> rfl

/-- A scalar channel value ends in one call of `udp_send_json` on the updated globals;
an orientation makes no call. -/
theorem channel_update_effects (u : ChannelUpdate) (s : Plugin) :
    (channel_update u s).2 =
      if u.is_scalar = true then udp_send_json (channel_update u s).1 else [] := by
  cases u <;>
  simp [channel_update, telemetry_store_orientation_effects, telemetry_store_float,
    telemetry_store_s32, ChannelUpdate.is_scalar]

/-- No channel value changes the socket: readiness, descriptor and address stay. -/
theorem channel_update_socket (u : ChannelUpdate) (s : Plugin) :
    (channel_update u s).1.g_udp_ready = s.g_udp_ready ∧
    (channel_update u s).1.g_udp_fd = s.g_udp_fd ∧
    (channel_update u s).1.g_udp_addr = s.g_udp_addr := by
  cases u with
  | world_placement v =>
    cases v <;> simp [channel_update, telemetry_store_orientation]
  | _ => simp [channel_update, telemetry_store_float, telemetry_store_s32]

/-- C2: handling a channel value sends exactly one datagram when the channel is one of
the nine scalar ones and the socket is ready, and none when the value is an orientation
or the socket is not ready; the paused flag has no influence on that number. -/
theorem datagrams_per_update (s : Plugin) (u : ChannelUpdate) :
    datagrams (channel_update u s).2 =
      (if u.is_scalar = true ∧ s.g_udp_ready = true then 1 else 0) ∧
    ∀ b : Bool, datagrams (channel_update u { s with output_paused := b }).2 =
      datagrams (channel_update u s).2 := by
  have key : ∀ t : Plugin, datagrams (channel_update u t).2 =
      (if u.is_scalar = true ∧ t.g_udp_ready = true then 1 else 0) := by
    intro t
    rw [channel_update_effects]
    by_cases hu : u.is_scalar = true
    · simp [hu, datagrams_udp_send_json, (channel_update_socket u t).1]
    · simp [hu, datagrams]
  refine ⟨key s, fun b => ?_⟩
  rw [key, key]

/-! ## Registration failures during initialisation -/

theorem releases_log_line (s : Plugin) (text : String) : releases (log_line s text) = 0 := by
  unfold log_line
  split <;> simp [releases]

theorem releases_game_version_warnings (sdk : SDK)
    (params : scs_telemetry_init_params_v101_t) (s : Plugin) :
    releases (game_version_warnings sdk params s) = 0 := by
  have h := releases_log_line s
  unfold game_version_warnings
  unfold releases at h ⊢
  split_ifs <;> simp [List.countP_append, h]

theorem releases_register_events (params : scs_telemetry_init_params_v101_t)
    (l : List (scs_event_t × Callback)) : releases (register_events params l).2 = 0 := by
  induction l with
  | nil => simp [register_events, releases]
  | cons p rest ih =>
    obtain ⟨e, cb⟩ := p
    unfold releases at ih ⊢
    unfold register_events
    split_ifs <;> simp [ih]

theorem releases_init_log (os : OS) (s : Plugin) : releases (init_log os s).2.2 = 0 := by
  unfold init_log
  split_ifs <;> simp [releases]

theorem releases_udp_open (os : OS) (s : Plugin) : releases (udp_open os s).2 = 0 := by
  unfold udp_open
  split_ifs <;> simp [releases]

theorem init_log_opens (os : OS) (s : Plugin) (h : s.log_file = true ∨ os.fopen_ok = true) :
    (init_log os s).1 = true ∧ (init_log os s).2.1 = { s with log_file := true } := by
  unfold init_log
  by_cases h1 : s.log_file = true
  · cases s; simp_all
  · by_cases h2 : os.fopen_ok = true <;> simp_all

/-- C6 (as the code behaves): with the supported version and the log open, init fails
exactly when one of the four event registrations of the chain (frame_start, frame_end,
paused, started) fails.  On that failure it reports to the host log and returns
`generic_error` without releasing anything: the log file stays open and the socket stays
as `udp_open` left it, ready when `socket` succeeded.  When the four succeed init
returns `ok` whatever the other registrations (configuration, gameplay, the channels)
return. -/
theorem init_registration_failure (sdk : SDK) (os : OS) (version : Nat)
    (params : scs_telemetry_init_params_v101_t) (s : Plugin)
    (hv : version = sdk.SCS_TELEMETRY_VERSION_1_01)
    (hlog : s.log_file = true ∨ os.fopen_ok = true) :
    ((∃ p ∈ required_events, params.register_for_event p.1 ≠ scs_result_t.ok) →
      (scs_telemetry_init sdk os version params s).1 = scs_result_t.generic_error ∧
      (scs_telemetry_init sdk os version params s).2.1 =
        (udp_open os { s with log_file := true }).1 ∧
      (scs_telemetry_init sdk os version params s).2.1.log_file = true ∧
      (scs_telemetry_init sdk os version params s).2.1.g_udp_ready =
        decide (0 ≤ os.socket_result) ∧
      releases (scs_telemetry_init sdk os version params s).2.2 = 0 ∧
      Effect.host_log scs_log_type_t.error "Unable to register event callbacks" ∈
        (scs_telemetry_init sdk os version params s).2.2) ∧
    ((∀ p ∈ required_events, params.register_for_event p.1 = scs_result_t.ok) →
      (scs_telemetry_init sdk os version params s).1 = scs_result_t.ok) := by
  obtain ⟨hl1, hl2⟩ := init_log_opens os s hlog
  have hopen : (udp_open os { s with log_file := true }).1.log_file = true ∧
      (udp_open os { s with log_file := true }).1.g_udp_ready =
        decide (0 ≤ os.socket_result) := by
    unfold udp_open
    by_cases hs : os.socket_result < 0
    · simp [hs]
    · simp [hs]; omega
  constructor
  · intro hfail
    have hr : (register_events params required_events).1 = false := by
      cases hb : (register_events params required_events).1
      · rfl
      · obtain ⟨p, hp, hne⟩ := hfail
        exact absurd ((register_events_required_ok params).1 hb p hp) hne
    have e1 := releases_init_log os s
    have e2 := releases_udp_open os { s with log_file := true }
    have e3 := releases_log_line (udp_open os { s with log_file := true }).1
    have e4 := releases_game_version_warnings sdk params
      (udp_open os { s with log_file := true }).1
    have e5 := releases_register_events params required_events
    unfold releases at e1 e2 e3 e4 e5
    simp [scs_telemetry_init, hv, hl1, hl2, hr, hopen, releases, List.countP_append,
      e1, e2, e3, e4, e5]
  · intro hall
    have hr := (register_events_required_ok params).2 hall
    simp [scs_telemetry_init, hv, hl1, hr]

/-- C6, amended, with the frame-start registration failing from the freshly loaded
library. -/
theorem init_registration_failure_witness :
    (65537 = scssdk.SCS_TELEMETRY_VERSION_1_01) ∧
    (Plugin.loaded.log_file = true ∨ demo_os.fopen_ok = true) ∧
    (∃ p ∈ required_events, failing_event_params.register_for_event p.1 ≠ scs_result_t.ok) ∧
    (scs_telemetry_init scssdk demo_os 65537 failing_event_params Plugin.loaded).1 =
      scs_result_t.generic_error ∧
    (scs_telemetry_init scssdk demo_os 65537 failing_event_params Plugin.loaded).2.1.log_file
      = true ∧
    releases (scs_telemetry_init scssdk demo_os 65537 failing_event_params Plugin.loaded).2.2
      = 0 :=
  have hv : 65537 = scssdk.SCS_TELEMETRY_VERSION_1_01 := rfl
  have hlog : Plugin.loaded.log_file = true ∨ demo_os.fopen_ok = true := Or.inr rfl
  have hfail : ∃ p ∈ required_events,
      failing_event_params.register_for_event p.1 ≠ scs_result_t.ok :=
    ⟨(scs_event_t.frame_start, Callback.telemetry_frame_start), by decide, by decide⟩
  have h := (init_registration_failure scssdk demo_os 65537 failing_event_params
    Plugin.loaded hv hlog).1 hfail
  ⟨hv, hlog, hfail, h.1, h.2.2.1, h.2.2.2.2.1⟩

/-- C6 as stated fails: when the frame-start registration fails, init returns an error
with the log file still open and the socket still marked ready, having released nothing;
and when every channel registration fails, init returns `ok`. -/
theorem init_failure_keeps_resources :
    (scs_telemetry_init scssdk demo_os 65537 failing_event_params Plugin.loaded).1 =
      scs_result_t.generic_error ∧
    (scs_telemetry_init scssdk demo_os 65537 failing_event_params Plugin.loaded).2.1.log_file
      = true ∧
    (scs_telemetry_init scssdk demo_os 65537 failing_event_params
      Plugin.loaded).2.1.g_udp_ready = true ∧
    (scs_telemetry_init scssdk demo_os 65537 failing_event_params Plugin.loaded).2.1.g_udp_fd
      = 3 ∧
    releases (scs_telemetry_init scssdk demo_os 65537 failing_event_params Plugin.loaded).2.2
      = 0 ∧
    (∀ c : Channel, failing_channel_params.register_for_channel c ≠ scs_result_t.ok) ∧
    (scs_telemetry_init scssdk demo_os 65537 failing_channel_params Plugin.loaded).1 =
      scs_result_t.ok := by
  refine ⟨by decide, by decide, by decide, by decide, by decide, ?_, by decide⟩
  intro c
  simp [failing_channel_params]

/-! ## The message shows the latest values -/

theorem F32.eq_zero (x : F32) :
    (if F32.eq x F32.zero then F32.zero else x) = x.unsigned_zero := by
  obtain ⟨sg, e, m⟩ := x
  by_cases he : e.val = 0
  · have he0 : e = 0 := Fin.ext he
    subst he0
    by_cases hm : m.val = 0
    · have hm0 : m = 0 := Fin.ext hm
      subst hm0
      cases sg <;> decide
    · have hm1 : ¬ m = 0 := fun h => hm (by rw [h]; rfl)
      have hm2 : ¬ (0 : Fin 8388608) = m := fun h => hm1 h.symm
      cases sg <;>
        simp [F32.eq, F32.isNaN, F32.isZero, F32.zero, F32.neg_zero, F32.unsigned_zero,
          hm, hm1, hm2]
  · have he1 : ¬ e = 0 := fun h => he (by rw [h]; rfl)
    have he2 : ¬ (0 : Fin 256) = e := fun h => he1 h.symm
    cases sg <;>
      simp [F32.eq, F32.isNaN, F32.isZero, F32.zero, F32.neg_zero, F32.unsigned_zero,
        he, he1, he2]

theorem latest_float_snoc (c : Channel) (us : List ChannelUpdate) (u : ChannelUpdate) :
    latest_float c (us ++ [u]) = (u.float_on c).getD (latest_float c us) := by
  simp only [latest_float, List.reverse_append, List.reverse_singleton, List.singleton_append,
    List.findSome?_cons]
  cases u.float_on c <;> rfl

theorem latest_s32_snoc (c : Channel) (us : List ChannelUpdate) (u : ChannelUpdate) :
    latest_s32 c (us ++ [u]) = (u.s32_on c).getD (latest_s32 c us) := by
  simp only [latest_s32, List.reverse_append, List.reverse_singleton, List.singleton_append,
    List.findSome?_cons]
  cases u.s32_on c <;> rfl

theorem channel_updates_snoc (s : Plugin) (us : List ChannelUpdate) (u : ChannelUpdate) :
    channel_updates s (us ++ [u]) = (channel_update u (channel_updates s us)).1 := by
  simp [channel_updates, List.foldl_append]

theorem tracks_step (s : Plugin) (us : List ChannelUpdate) (u : ChannelUpdate)
    (h : Tracks s us) (hu : u.well_typed) : Tracks (channel_update u s).1 (us ++ [u]) := by
  obtain ⟨h1, h2, h3, h4, h5, h6, h7, h8, h9, h10, h11⟩ := h
  unfold Tracks
  simp only [latest_float_snoc, latest_s32_snoc, ← h1, ← h2, ← h3, ← h4, ← h5, ← h6, ← h7,
    ← h8, ← h9]
  cases u with
  | world_placement v =>
    cases v <;>
    simp [channel_update, telemetry_store_orientation, ChannelUpdate.float_on,
      ChannelUpdate.s32_on, h10, h11]
  | engine_gear v =>
    simp [channel_update, telemetry_store_s32, telemetry_state_t.store_s32,
      ChannelUpdate.float_on, ChannelUpdate.s32_on, h11]
    exact hu
  | displayed_gear v =>
    simp [channel_update, telemetry_store_s32, telemetry_state_t.store_s32,
      ChannelUpdate.float_on, ChannelUpdate.s32_on, h10]
    exact hu
  | _ =>
    simp [channel_update, telemetry_store_float, telemetry_state_t.store_float,
      ChannelUpdate.float_on, ChannelUpdate.s32_on, h10, h11]

theorem tracks_run (s : Plugin) (h : Tracks s []) (us : List ChannelUpdate)
    (hus : ∀ x ∈ us, x.well_typed) : Tracks (channel_updates s us) us := by
  induction us using List.reverseRecOn with
  | nil => exact h
  | append_singleton l a ih =>
    rw [channel_updates_snoc]
    exact tracks_step _ _ _ (ih (fun x hx => hus x (List.mem_append_left _ hx)))
      (hus a (by simp))

theorem channel_updates_socket (s : Plugin) (us : List ChannelUpdate) :
    (channel_updates s us).g_udp_ready = s.g_udp_ready ∧
    (channel_updates s us).g_udp_fd = s.g_udp_fd ∧
    (channel_updates s us).g_udp_addr = s.g_udp_addr := by
  induction us using List.reverseRecOn with
  | nil => exact ⟨rfl, rfl, rfl⟩
  | append_singleton l a ih =>
    rw [channel_updates_snoc]
    obtain ⟨a1, a2, a3⟩ := channel_update_socket a (channel_updates s l)
    exact ⟨a1.trans ih.1, a2.trans ih.2.1, a3.trans ih.2.2⟩

theorem tracks_json_text (s : Plugin) (us : List ChannelUpdate) (h : Tracks s us) :
    json_text s = latest_message us := by
  obtain ⟨h1, h2, h3, h4, h5, h6, h7, h8, h9, _, _⟩ := h
  unfold json_text latest_message
  simp only [F32.eq_zero, h1, h2, h3, h4, h5, h6, h7, h8, h9]

/-- The globals after a successful initialisation of the freshly loaded library, when
`socket` succeeded. -/
theorem init_loaded_state (sdk : SDK) (os : OS) (version : Nat)
    (params : scs_telemetry_init_params_v101_t)
    (hinit : (scs_telemetry_init sdk os version params Plugin.loaded).1 = scs_result_t.ok)
    (hsock : 0 ≤ os.socket_result) :
    Tracks (scs_telemetry_init sdk os version params Plugin.loaded).2.1 [] ∧
    (scs_telemetry_init sdk os version params Plugin.loaded).2.1.g_udp_ready = true ∧
    (scs_telemetry_init sdk os version params Plugin.loaded).2.1.g_udp_fd = os.socket_result ∧
    (scs_telemetry_init sdk os version params Plugin.loaded).2.1.g_udp_addr = loopback := by
  rw [init_ok_state sdk os version params Plugin.loaded hinit]
  have hs : ¬ os.socket_result < 0 := by omega
  simp [udp_open, hs, Tracks, latest_float, latest_s32, Plugin.loaded,
    telemetry_state_t.zeroed, loopback, is_s32]

/-- C1: after load and a successful init with the socket open, whatever channel values
were delivered before, a scalar value `u` makes the plugin send exactly the message that
shows, field by field, the latest value applied so far (`u` included) and zero for a
field never updated. -/
theorem wire_shows_latest (sdk : SDK) (os : OS) (version : Nat)
    (params : scs_telemetry_init_params_v101_t)
    (hinit : (scs_telemetry_init sdk os version params Plugin.loaded).1 = scs_result_t.ok)
    (hsock : 0 ≤ os.socket_result)
    (us : List ChannelUpdate) (u : ChannelUpdate)
    (hus : ∀ x ∈ us, x.is_scalar = true ∧ x.well_typed)
    (hu : u.is_scalar = true ∧ u.well_typed) :
    (channel_update u
      (channel_updates (scs_telemetry_init sdk os version params Plugin.loaded).2.1 us)).2 =
      [Effect.sendto os.socket_result (latest_message (us ++ [u]))
        (latest_message (us ++ [u])).length loopback] := by
  obtain ⟨t0, r0, f0, a0⟩ := init_loaded_state sdk os version params hinit hsock
  have ht := tracks_step _ _ u (tracks_run _ t0 us (fun x hx => (hus x hx).2)) hu.2
  obtain ⟨r1, f1, a1⟩ := channel_updates_socket
    (scs_telemetry_init sdk os version params Plugin.loaded).2.1 us
  obtain ⟨r2, f2, a2⟩ := channel_update_socket u
    (channel_updates (scs_telemetry_init sdk os version params Plugin.loaded).2.1 us)
  rw [channel_update_effects, if_pos hu.1]
  have hfit := udp_send_json_whole _ ht.2.2.2.2.2.2.2.2.2.1 ht.2.2.2.2.2.2.2.2.2.2
    (by rw [r2, r1, r0])
  rw [hfit, tracks_json_text _ _ ht, f2, f1, f0, a2, a1, a0]

/-- C1 on the run speed 27.778, gear 3, rpm 1500: the third value sends the message
showing all three. -/
theorem wire_shows_latest_witness :
    (scs_telemetry_init scssdk demo_os 65537 demo_params Plugin.loaded).1 = scs_result_t.ok ∧
    (0 : Int) ≤ demo_os.socket_result ∧
    (∀ x ∈ [ChannelUpdate.speed f32_27_778, ChannelUpdate.engine_gear 3],
      x.is_scalar = true ∧ x.well_typed) ∧
    ((ChannelUpdate.engine_rpm f32_1500).is_scalar = true ∧
      (ChannelUpdate.engine_rpm f32_1500).well_typed) ∧
    (channel_update (ChannelUpdate.engine_rpm f32_1500)
      (channel_updates (scs_telemetry_init scssdk demo_os 65537 demo_params Plugin.loaded).2.1
        [ChannelUpdate.speed f32_27_778, ChannelUpdate.engine_gear 3])).2 =
      [Effect.sendto demo_os.socket_result
        (latest_message ([ChannelUpdate.speed f32_27_778, ChannelUpdate.engine_gear 3] ++
          [ChannelUpdate.engine_rpm f32_1500]))
        (latest_message ([ChannelUpdate.speed f32_27_778, ChannelUpdate.engine_gear 3] ++
          [ChannelUpdate.engine_rpm f32_1500])).length loopback] ∧
    latest_message ([ChannelUpdate.speed f32_27_778, ChannelUpdate.engine_gear 3] ++
        [ChannelUpdate.engine_rpm f32_1500]) =
      "\x7b\"speed\":27.778,\"rpm\":1500.0,\"gear\":3,\"dgear\":0,\"steer\":0.000,\"throttle\":0.000,\"brake\":0.000,\"clutch\":0.000,\"cruise\":0.000\x7d\n" :=
  ⟨by decide, by decide, by decide, by decide,
   wire_shows_latest scssdk demo_os 65537 demo_params (by decide) (by decide)
     [ChannelUpdate.speed f32_27_778, ChannelUpdate.engine_gear 3]
     (ChannelUpdate.engine_rpm f32_1500) (by decide) (by decide),
   by decide⟩

/-! ## Re-initialisation and negative zero -/

set_option maxRecDepth 100000 in
/-- C3: in a second session (init, `rpm = 1500`, shutdown, init again, every step
succeeding) the snapshot is zeroed, yet the update `speed = 27.778` sends a datagram
whose rpm field shows 1500.0 and not zero; from the freshly loaded library the same
update sends exactly the datagram of the end-to-end example. -/
theorem second_session_shows_stale_rpm :
    (scs_telemetry_init scssdk demo_os 65537 demo_params
      (scs_telemetry_shutdown
        (channel_update (ChannelUpdate.engine_rpm f32_1500) demo_session).1).1).1
      = scs_result_t.ok ∧
    second_session.telemetry = telemetry_state_t.zeroed ∧
    (channel_update (ChannelUpdate.speed f32_27_778) second_session).2 =
      [Effect.sendto 3 stale_rpm_datagram stale_rpm_datagram.length loopback] ∧
    (channel_update (ChannelUpdate.speed f32_27_778) demo_session).2 =
      [Effect.sendto 3 expected_first_datagram expected_first_datagram.length loopback] ∧
    stale_rpm_datagram ≠ expected_first_datagram := by
  decide

/-- The speed field is normalised in every state: negative zero in `g_udp_speed` gives
the text of positive zero. -/
theorem speed_negative_zero_normalised (s : Plugin) :
    json_text { s with g_udp_speed := F32.neg_zero } =
      json_text { s with g_udp_speed := F32.zero } := by
  unfold json_text
  rfl

set_option maxRecDepth 100000 in
/-- C5: with negative zero delivered on all seven float channels, the datagram shows
`"speed":0.000` but `"rpm":-0.0`, `"steer":-0.000`, `"throttle":-0.000`,
`"brake":-0.000`, `"clutch":-0.000` and `"cruise":-0.000`: only the speed is written
without the minus sign. -/
theorem negative_zero_only_speed_normalised :
    printf_f 3 F32.neg_zero = "-0.000" ∧
    (channel_update (ChannelUpdate.speed F32.neg_zero)
      (channel_updates demo_session negative_zero_updates)).2 =
      [Effect.sendto 3 negative_zero_datagram negative_zero_datagram.length loopback] := by
  decide
